import Mathlib

/-!
Verification of the transaction-normalisation core of the `awaken_connect`
repository (chain adapters for Creditcoin, Humanity Protocol, Celo, Fuel and
Kaspa, plus the shared Awaken tax-label mapper).

The TypeScript sources are shallowly embedded below:
JavaScript strings are lists of characters, `BigInt(...)` conversions that can
throw are modelled as `Option`, numeric values are exact `Nat`/`Int`, and each
parse function that can throw returns `Option`.  Raw explorer records become
Lean structures carrying exactly the fields the source reads, with `Option`
for fields that may be absent (`undefined`).  Impure inputs (the awaited UTXO
fee trace, `Date.now()`) are passed as explicit parameters.
-/

namespace AwakenConnect

/-- JavaScript strings modelled as lists of characters. -/
abbrev JSStr := List Char

/-- Embed a Lean string literal into the character-list model. -/
def js (s : String) : JSStr := s.toList

/-- Character for a decimal digit (`0` ↦ `'0'`, …, `9` ↦ `'9'`). -/
def digitChar (d : Nat) : Char := Char.ofNat (48 + d)

/-- Numeric value of a decimal digit character. -/
def charVal (c : Char) : Nat := c.toNat - 48

/-- Little-endian decimal digits of a natural number, with explicit fuel so
that the definition is structurally recursive and reduces inside `decide`.
`digitsFuel n n` always has enough fuel. -/
def digitsFuel : Nat → Nat → List Nat
  | 0, _ => []
  | _ + 1, 0 => []
  | fuel + 1, n + 1 => (n + 1) % 10 :: digitsFuel fuel ((n + 1) / 10)

/-- Little-endian decimal digits of `n` (empty for `0`). -/
def natDigits (n : Nat) : List Nat := digitsFuel n n

/-- Decimal string of a natural number, most significant digit first, as
produced by JavaScript `BigInt.prototype.toString` (`"0"` for zero). -/
def natToChars (n : Nat) : JSStr :=
  if n = 0 then js "0" else (natDigits n).reverse.map digitChar

/-- Decimal string of an integer, as produced by JavaScript
`BigInt.prototype.toString` (a leading `'-'` for negative values). -/
def intToChars (i : Int) : JSStr :=
  if i < 0 then ['-'] ++ natToChars i.natAbs else natToChars i.natAbs

/-- Numeric value of a most-significant-first digit string (the exact value a
decimal digit string denotes). -/
def valOfChars (s : JSStr) : Nat := s.foldl (fun a c => 10 * a + charVal c) 0

/-- JavaScript `String.prototype.padStart(target, c)`. -/
def jsPadStart (s : JSStr) (target : Nat) (c : Char) : JSStr :=
  List.replicate (target - s.length) c ++ s

/-- JavaScript `s.slice(0, -d)` for a natural `d`.  JavaScript computes the
end index as `max(length - d, 0)`, except that `-0 === 0` so `d = 0` yields
the empty slice `s.slice(0, 0)` — this quirk is preserved. -/
def jsSliceDropLast (s : JSStr) (d : Nat) : JSStr :=
  if d = 0 then [] else s.take (s.length - d)

/-- JavaScript `s.slice(-d)` for a natural `d` (for `d = 0` this is
`s.slice(0)`, the whole string). -/
def jsSliceLast (s : JSStr) (d : Nat) : JSStr :=
  if d = 0 then s else s.drop (s.length - d)

/-- JavaScript `s.replace(/0+$/, '')`: strip all trailing `'0'` characters. -/
def stripTrailingZeros (s : JSStr) : JSStr :=
  (s.reverse.dropWhile (· == '0')).reverse

/-- JavaScript `BigInt(string)` on the string forms exercised here: the empty
string yields `0`, an optionally signed run of decimal digits yields its
value, and anything else throws (`none`).  (Whitespace trimming and the
`0x`/`0o`/`0b` prefixed forms of `BigInt` are not modelled; no theorem below
evaluates the conversion on such inputs.) -/
def jsBigInt (s : JSStr) : Option Int :=
  if s = [] then some 0
  else if s.head? = some '-' then
    (if s.tail ≠ [] ∧ s.tail.all (·.isDigit) then
      some (-(valOfChars s.tail : Int)) else none)
  else if s.head? = some '+' then
    (if s.tail ≠ [] ∧ s.tail.all (·.isDigit) then
      some ((valOfChars s.tail : Int)) else none)
  else if s.all (·.isDigit) then some ((valOfChars s : Int)) else none

/-- Shared pad/slice/strip block of the five `formatUnits` implementations
(`creditcoin.ts` 392–397, the Kaspa adapter 460–464, `humanity.ts` 137–141,
`celo.ts` 250–253, `fuel.ts` 193–196 — the lines are textually identical in
the source):
`str.padStart(decimals + 1, '0')`, split with `slice(0, -decimals)` /
`slice(-decimals)`, strip trailing zeros from the fractional part, and join
with `'.'` when the fractional part is non-empty. -/
def padSliceFormat (str : JSStr) (decimals : Nat) : JSStr :=
  let padded := jsPadStart str (decimals + 1) '0'
  let integerPart := jsSliceDropLast padded decimals
  let fractionalPart := stripTrailingZeros (jsSliceLast padded decimals)
  if fractionalPart = [] then integerPart
  else integerPart ++ ['.'] ++ fractionalPart

/-- The JavaScript test `value.startsWith('-')`. -/
def jsStartsWithMinus (s : JSStr) : Bool := s.head? = some '-'

/-- Embeds `formatUnits` of `src/src/adapters/creditcoin.ts` (lines 384–398).
`none` models the exception thrown by `BigInt(value)` on malformed input. -/
def creditcoinFormatUnits (value : JSStr) (decimals : Nat) : Option JSStr :=
  if value = [] ∨ value = js "0" then some (js "0")
  else if jsStartsWithMinus value then some (js "0")
  else match jsBigInt value with
    | none => none
    | some val =>
      if val = 0 then some (js "0")
      else some (padSliceFormat (intToChars val) decimals)

/-- Embeds `formatUnits` of `src/src/adapters/humanity.ts` (lines 130–142);
the body is identical to the Creditcoin one. -/
def humanityFormatUnits (value : JSStr) (decimals : Nat) : Option JSStr :=
  if value = [] ∨ value = js "0" then some (js "0")
  else if jsStartsWithMinus value then some (js "0")
  else match jsBigInt value with
    | none => none
    | some val =>
      if val = 0 then some (js "0")
      else some (padSliceFormat (intToChars val) decimals)

/-- Embeds `formatUnits` of `src/src/adapters/celo.ts` (lines 247–254).
Unlike the Creditcoin/Humanity versions it has no `startsWith('-')` clamp and
no `val === 0` shortcut. -/
def celoFormatUnits (value : JSStr) (decimals : Nat) : Option JSStr :=
  if value = [] ∨ value = js "0" then some (js "0")
  else match jsBigInt value with
    | none => none
    | some val => some (padSliceFormat (intToChars val) decimals)

/-- Embeds `formatUnits` of the Kaspa adapter (`creditcoin.ts` second unit,
lines 454–465): like Creditcoin's but without the `startsWith('-')` clamp. -/
def kaspaFormatUnits (sompi : JSStr) (decimals : Nat) : Option JSStr :=
  if sompi = [] ∨ sompi = js "0" then some (js "0")
  else match jsBigInt sompi with
    | none => none
    | some val =>
      if val = 0 then some (js "0")
      else some (padSliceFormat (intToChars val) decimals)

/-- Embeds `formatUnits` of `src/src/adapters/fuel.ts` (lines 191–197); this
one receives an already-converted `bigint`, so it is total. -/
def fuelFormatUnits (value : Int) (decimals : Nat) : JSStr :=
  if value = 0 then js "0" else padSliceFormat (intToChars value) decimals

/-- JavaScript `String.prototype.toLowerCase` (ASCII range; the addresses and
hex strings the source lowercases are ASCII). -/
def jsToLower (s : JSStr) : JSStr := s.map Char.toLower

/-- JavaScript `String.prototype.trim`. -/
def jsTrim (s : JSStr) : JSStr :=
  ((s.dropWhile (·.isWhitespace)).reverse.dropWhile (·.isWhitespace)).reverse

/-- The JavaScript truthiness chain `a || b` on two optional strings
(`undefined` and the empty string are falsy). -/
def jsOrStr (a b : Option JSStr) : Option JSStr :=
  match a with
  | some l => if l = [] then (match b with
      | some m => if m = [] then none else some m
      | none => none) else some l
  | none => match b with
    | some m => if m = [] then none else some m
    | none => none

/-- Truthiness chain `a || b || 0` on optional naturals (`0` is falsy, so it
is also the overall default). -/
def jsOrNat (a b : Option Nat) : Nat :=
  match a with
  | some n => if n = 0 then (match b with | some m => m | none => 0) else n
  | none => match b with | some m => m | none => 0

/-- Truthiness chain `a || b || false` on optional booleans. -/
def jsOrBool (a b : Option Bool) : Bool :=
  match a with
  | some x => if x then true else (match b with | some y => y | none => false)
  | none => match b with | some y => y | none => false

/-- The enumeration `TransactionStatus` of `src/src/utils/csv.ts`. -/
inductive TransactionStatus where
  | SUCCESS
  | FAILED
  | PENDING
  | UNKNOWN
  deriving DecidableEq, Repr

/-- The enumeration `ActionType` of `src/src/utils/csv.ts` (`CONTRACT` is the
source's `'contract_interaction'`). -/
inductive ActionType where
  | SEND
  | RECEIVE
  | SWAP
  | CONTRACT
  | UNKNOWN
  deriving DecidableEq, Repr

/-- A JavaScript `Date` value as the adapters build one: from an epoch-ms
number, from an engine-parsed string (kept opaque), or invalid (`NaN`). -/
inductive JSDate where
  | epochMs (ms : Int)
  | ofString (s : JSStr)
  | invalid
  deriving DecidableEq, Repr

/-- JavaScript `parseInt` on the decimal strings the adapters feed it: an
optionally signed run of leading digits; `none` models `NaN`. -/
def jsParseInt (s : JSStr) : Option Int :=
  match s with
  | [] => none
  | c :: rest =>
    if c = '-' then
      (if (rest.takeWhile (·.isDigit)) = [] then none
       else some (-(valOfChars (rest.takeWhile (·.isDigit)) : Int)))
    else if (s.takeWhile (·.isDigit)) = [] then none
    else some ((valOfChars (s.takeWhile (·.isDigit)) : Int))

/-- The canonical `ParsedTransaction` interface of `src/src/utils/csv.ts`.
`hash` is `Option` because the source copies `tx.hash` through untouched, so
a raw record without a hash flows `undefined` (`none`) into the field;
`date : JSDate` models the JavaScript `Date` the adapters construct. -/
structure ParsedTx where
  id : JSStr
  date : JSDate
  receivedQuantity : JSStr
  receivedCurrency : JSStr
  sentQuantity : JSStr
  sentCurrency : JSStr
  feeAmount : JSStr
  feeCurrency : JSStr
  hash : Option JSStr
  notes : JSStr
  status : TransactionStatus
  type : ActionType
  link : JSStr
  tag : JSStr
  deriving DecidableEq, Repr

/-- The map `METHOD_TO_AWAKEN_LABEL` of the Awaken label utility (second unit
of `src/src/components/NetworkSelector.tsx`, lines 76–106), as the
association list of its entries. -/
def METHOD_TO_AWAKEN_LABEL : List (JSStr × JSStr) :=
  [ (js "exactInputSingle", js "swap")
  , (js "exactOutputSingle", js "swap")
  , (js "exactInput", js "swap")
  , (js "exactOutput", js "swap")
  , (js "swap", js "swap")
  , (js "add_liquidity", js "add_liquidity")
  , (js "remove_liquidity", js "remove_liquidity")
  , (js "token_transfer", js "payment")
  , (js "token_transferFrom", js "payment") ]

/-- Embeds `mapToAwakenLabel` (second unit of
`src/src/components/NetworkSelector.tsx`, lines 117–134).  Note the
`if (!methodName) return ''` guard runs before the native-transfer branch. -/
def mapToAwakenLabel (methodName : JSStr) (isNativeTransfer : Bool)
    (isSender : Bool) : JSStr :=
  if methodName = [] then []
  else if isNativeTransfer then
    (if isSender then js "payment" else js "receive")
  else (List.lookup methodName METHOD_TO_AWAKEN_LABEL).getD []

/-- The `methodSignatures` table of `detectTransactionType` in
`src/src/adapters/creditcoin.ts` (lines 289–332). -/
def creditcoinMethodSignatures : List (JSStr × JSStr) :=
  [ (js "0xa9059cbb", js "token_transfer")
  , (js "0x23b872dd", js "token_transferFrom")
  , (js "0x095ea7b3", js "token_approve")
  , (js "0x70a08231", js "token_balanceOf")
  , (js "0xdd62ed3e", js "token_allowance")
  , (js "0x06fdde03", js "token_name")
  , (js "0x95d89b41", js "token_symbol")
  , (js "0x313ce567", js "token_decimals")
  , (js "0x40c10f19", js "token_mint")
  , (js "0x42966c68", js "token_burn")
  , (js "0x414bf389", js "exactInputSingle")
  , (js "0x88316456", js "exactInput")
  , (js "0xc04b8d59", js "exactOutputSingle")
  , (js "0x09b81346", js "exactOutput")
  , (js "0x5ae401dc", js "multicall")
  , (js "0xac9650d8", js "multicall")
  , (js "0xf28c0498", js "swap")
  , (js "0x128acb08", js "swap")
  , (js "0xe8eda9df", js "borrow")
  , (js "0xa415bcad", js "repay")
  , (js "0x617ba037", js "supply")
  , (js "0x69328dec", js "withdraw")
  , (js "0x2e1a7d4d", js "withdraw")
  , (js "0xd0e30db0", js "deposit")
  , (js "0xa694fc3a", js "stake")
  , (js "0x4e71d92d", js "claim")
  , (js "0x3d18b912", js "getReward")
  , (js "0xe9fad8ee", js "exit")
  , (js "0xddde0930", js "transfer_substrate")
  , (js "0x469451e0", js "claim")
  , (js "0x6a627842", js "mint")
  , (js "0x9012c4a8", js "claim_rewards")
  , (js "0x751fd179", js "stake") ]

/-- The `methodSignatures` table of `detectTransactionType` in
`src/src/adapters/humanity.ts` (lines 71–86). -/
def humanityMethodSignatures : List (JSStr × JSStr) :=
  [ (js "0xa9059cbb", js "token_transfer")
  , (js "0x23b872dd", js "token_transferFrom")
  , (js "0x095ea7b3", js "token_approve")
  , (js "0xd0e30db0", js "deposit")
  , (js "0x2e1a7d4d", js "withdraw")
  , (js "0x414bf389", js "exactInputSingle")
  , (js "0xac9650d8", js "multicall")
  , (js "0x88316456", js "exactInput")
  , (js "0xc04b8d59", js "exactOutputSingle")
  , (js "0xddde0930", js "transfer_substrate")
  , (js "0x469451e0", js "claim")
  , (js "0x6a627842", js "mint")
  , (js "0x9012c4a8", js "claim_rewards")
  , (js "0x751fd179", js "stake") ]

/-- The `methodSignatures` table of `detectCeloTransactionType` in
`src/src/adapters/celo.ts` (lines 185–196). -/
def celoMethodSignatures : List (JSStr × JSStr) :=
  [ (js "0xa9059cbb", js "token_transfer")
  , (js "0x23b872dd", js "token_transferFrom")
  , (js "0x095ea7b3", js "token_approve")
  , (js "0x414bf389", js "exactInputSingle")
  , (js "0x88316456", js "exactInput")
  , (js "0xc04b8d59", js "exactOutputSingle")
  , (js "0x09b81346", js "exactOutput")
  , (js "0x5ae401dc", js "multicall")
  , (js "0xf28c0498", js "swap")
  , (js "0x00f55d9d", js "celo_transfer") ]

/-- Raw Blockscout-style EVM record, with exactly the fields the Creditcoin
and Humanity parsers read.  `fromAddr` embeds the source field `from` (a Lean
keyword), `toAddr` the source field `to`; optional fields model possibly-absent (`undefined`) values. -/
structure EvmRawTx where
  fromAddr : JSStr
  toAddr : Option JSStr
  value : JSStr
  input : Option JSStr
  gasUsed : JSStr
  gasPrice : JSStr
  timeStamp : JSStr
  hash : Option JSStr
  txreceipt_status : Option JSStr
  deriving DecidableEq, Repr

/-- The defaulted call data `tx.input || '0x'` (absent or empty input falls
back to `'0x'`). -/
def evmInputOf (tx : EvmRawTx) : JSStr :=
  match tx.input with
  | none => js "0x"
  | some i => if i = [] then js "0x" else i

/-- Embeds `detectTransactionType` of `src/src/adapters/creditcoin.ts`
(lines 284–350). -/
def detectTransactionType (tx : EvmRawTx) : JSStr :=
  let input := evmInputOf tx
  let methodId := jsToLower (input.take 10)
  if tx.toAddr = none ∨ tx.toAddr = some [] then js "contract_creation"
  else if input ≠ [] ∧ input ≠ js "0x" ∧ input.length > 2 then
    match List.lookup methodId creditcoinMethodSignatures with
    | some detectedMethod => detectedMethod
    | none => js "contract_call"
  else js "native_transfer"

/-- Embeds `detectTransactionType` of `src/src/adapters/humanity.ts`
(lines 66–104); same shape as the Creditcoin one, smaller table. -/
def humanityDetectTransactionType (tx : EvmRawTx) : JSStr :=
  let input := evmInputOf tx
  let methodId := jsToLower (input.take 10)
  if tx.toAddr = none ∨ tx.toAddr = some [] then js "contract_creation"
  else if input ≠ [] ∧ input ≠ js "0x" ∧ input.length > 2 then
    match List.lookup methodId humanityMethodSignatures with
    | some detectedMethod => detectedMethod
    | none => js "contract_call"
  else js "native_transfer"

/-- Truthiness of an optional string (`undefined` and `''` are falsy). -/
def jsStrTruthy (o : Option JSStr) : Option JSStr :=
  match o with
  | some l => if l = [] then none else some l
  | none => none

/-- Truthiness of an optional number (`undefined` and `0` are falsy). -/
def jsIntTruthy (o : Option Int) : Option Int :=
  match o with
  | some v => if v = 0 then none else some v
  | none => none

/-- The `typeLabels` table of `buildNotes` in `src/src/adapters/creditcoin.ts`
(lines 352–382); the `native_transfer` entry depends on `isSender`. -/
def creditcoinNoteLabels (isSender : Bool) : List (JSStr × JSStr) :=
  [ (js "token_transfer", js "Token Transfer")
  , (js "token_transferFrom", js "Token Transfer From")
  , (js "token_approve", js "Token Approval")
  , (js "token_mint", js "Token Mint")
  , (js "token_burn", js "Token Burn")
  , (js "deposit", js "Deposit")
  , (js "withdraw", js "Withdraw")
  , (js "supply", js "Supply")
  , (js "borrow", js "Borrow")
  , (js "repay", js "Repay")
  , (js "exactInputSingle", js "Swap (Exact Input Single)")
  , (js "exactOutputSingle", js "Swap (Exact Output Single)")
  , (js "exactInput", js "Swap (Exact Input)")
  , (js "exactOutput", js "Swap (Exact Output)")
  , (js "swap", js "Swap")
  , (js "multicall", js "Multicall")
  , (js "stake", js "Stake")
  , (js "claim", js "Claim")
  , (js "getReward", js "Get Reward")
  , (js "exit", js "Exit")
  , (js "transfer_substrate", js "Transfer Substrate")
  , (js "claim_rewards", js "Claim Rewards")
  , (js "contract_creation", js "Contract Creation")
  , (js "contract_call", js "Contract Interaction")
  , (js "native_transfer", if isSender then js "Sent CTC" else js "Received CTC") ]

/-- Embeds `buildNotes` of `src/src/adapters/creditcoin.ts`:
`typeLabels[txType] || (isSender ? 'Sent CTC' : 'Received CTC')`. -/
def buildNotes (isSender : Bool) (txType : JSStr) : JSStr :=
  (List.lookup txType (creditcoinNoteLabels isSender)).getD
    (if isSender then js "Sent CTC" else js "Received CTC")

/-- Embeds `parseCreditcoinTransaction` of `src/src/adapters/creditcoin.ts`
(lines 236–281).  `none` models a thrown exception (a `BigInt` conversion on
a malformed `value`, `gasUsed` or `gasPrice`). -/
def parseCreditcoinTransaction (tx : EvmRawTx) (userAddress : JSStr)
    (index : Nat) : Option ParsedTx := do
  let isSender := jsToLower tx.fromAddr == jsToLower userAddress
  let decimals := 18
  let valueStr ← creditcoinFormatUnits tx.value decimals
  let gu ← jsBigInt tx.gasUsed
  let gp ← jsBigInt tx.gasPrice
  let fee ← creditcoinFormatUnits (intToChars (gu * gp)) decimals
  let status :=
    if tx.txreceipt_status = some (js "1") then TransactionStatus.SUCCESS
    else if tx.txreceipt_status = some (js "0") then TransactionStatus.FAILED
    else TransactionStatus.UNKNOWN
  let txType := detectTransactionType tx
  let actionType :=
    if txType = js "exactInputSingle" ∨ txType = js "exactOutputSingle" ∨
        txType = js "exactInput" ∨ txType = js "swap" then ActionType.SWAP
    else if txType ≠ js "native_transfer" ∧ txType ≠ js "token_transfer" then
      ActionType.CONTRACT
    else if isSender then ActionType.SEND else ActionType.RECEIVE
  some
    { id := (tx.hash.getD (js "undefined")) ++ js "_" ++ natToChars index
    , date := match jsParseInt tx.timeStamp with
        | some v => JSDate.epochMs (v * 1000)
        | none => JSDate.invalid
    , receivedQuantity := if isSender then [] else valueStr
    , receivedCurrency := if isSender then [] else js "CTC"
    , sentQuantity := if isSender then valueStr else []
    , sentCurrency := if isSender then js "CTC" else []
    , feeAmount := if isSender then fee else []
    , feeCurrency := if isSender then js "CTC" else []
    , hash := tx.hash
    , notes := buildNotes isSender txType
    , status := status
    , type := actionType
    , link := js "https://creditcoin.blockscout.com/tx/" ++
        (tx.hash.getD (js "undefined"))
    , tag := mapToAwakenLabel txType (txType == js "native_transfer") isSender }

/-- Raw Celo record (Blockscout `txlist` row, or a `tokentx` row carrying the
injected `isTokenTransfer` flag), with the fields `parseCeloTransaction`
reads.  `tokenDecimal` is modelled as the already-parsed decimals count (the
source applies `parseInt` to a decimal digit string). -/
structure CeloRawTx where
  fromAddr : JSStr
  toAddr : Option JSStr
  value : JSStr
  input : Option JSStr
  gasUsed : Option JSStr
  gasPrice : Option JSStr
  timeStamp : JSStr
  hash : Option JSStr
  txreceipt_status : Option JSStr
  isError : Option JSStr
  isTokenTransfer : Bool
  tokenDecimal : Option Nat
  tokenSymbol : Option JSStr
  contractAddress : Option JSStr
  deriving DecidableEq, Repr

/-- The defaulted Celo call data `tx.input || '0x'`. -/
def celoInputOf (tx : CeloRawTx) : JSStr :=
  match tx.input with
  | none => js "0x"
  | some i => if i = [] then js "0x" else i

/-- Embeds `detectCeloTransactionType` of `src/src/adapters/celo.ts`
(lines 181–203). -/
def detectCeloTransactionType (tx : CeloRawTx) : JSStr :=
  let input := celoInputOf tx
  let methodId := jsToLower (input.take 10)
  if tx.toAddr = none ∨ tx.toAddr = some [] then js "contract_creation"
  else if input ≠ [] ∧ input ≠ js "0x" ∧ input.length > 2 then
    (List.lookup methodId celoMethodSignatures).getD (js "contract_call")
  else js "native_transfer"

/-- Embeds `detectTokenSymbol` of `src/src/adapters/celo.ts` (lines 209–214);
the two constants are the lowercased cUSD/cEUR contract addresses. -/
def detectTokenSymbol (contractAddress : Option JSStr) : Option JSStr :=
  match contractAddress with
  | none => none
  | some a =>
    if jsToLower a = js "0x765de816845861e75d25f0df739d9e2430c2913e" then
      some (js "cUSD")
    else if jsToLower a = js "0xd8763cba276a3738e6df85e191d76a7714b68eb1" then
      some (js "cEUR")
    else none

/-- Embeds `normalizeTokenSymbol` of `src/src/adapters/celo.ts`. -/
def normalizeTokenSymbol (symbol : JSStr) : JSStr :=
  if symbol = js "cUSD" ∨ symbol = js "cEUR" then symbol
  else symbol.map Char.toUpper

/-- The `typeLabels` table of `buildCeloNotes` (`celo.ts` lines 222–233). -/
def celoNoteLabels (isSender : Bool) : List (JSStr × JSStr) :=
  [ (js "token_transfer", js "Token Transfer")
  , (js "token_transferFrom", js "Token Transfer From")
  , (js "token_approve", js "Token Approval")
  , (js "celo_transfer", js "CELO Transfer")
  , (js "exactInputSingle", js "Swap (Exact Input Single)")
  , (js "exactInput", js "Swap (Exact Input)")
  , (js "swap", js "Swap")
  , (js "contract_creation", js "Contract Creation")
  , (js "contract_call", js "Contract Interaction")
  , (js "native_transfer", if isSender then js "Sent CELO" else js "Received CELO") ]

/-- Embeds `buildCeloNotes` of `src/src/adapters/celo.ts` (lines 221–245). -/
def buildCeloNotes (tx : CeloRawTx) (isSender : Bool) (txType : JSStr) : JSStr :=
  if tx.isTokenTransfer ∧ (jsStrTruthy tx.tokenSymbol).isSome then
    (if isSender then js "Sent " else js "Received ") ++ (tx.tokenSymbol.getD [])
  else
    match (if txType = js "token_transfer" then
        detectTokenSymbol tx.contractAddress else none) with
    | some tokenSymbol =>
      (if isSender then js "Sent " else js "Received ") ++ tokenSymbol
    | none =>
      (List.lookup txType (celoNoteLabels isSender)).getD
        (if isSender then js "Sent CELO" else js "Received CELO")

/-- Embeds `parseCeloTransaction` of `src/src/adapters/celo.ts`
(lines 123–179).  `none` models a thrown `BigInt` conversion. -/
def parseCeloTransaction (tx : CeloRawTx) (userAddress : JSStr) (index : Nat)
    (isTestnet : Bool) : Option ParsedTx := do
  let isSender := jsToLower tx.fromAddr == jsToLower userAddress
  let isTokenTransfer := tx.isTokenTransfer
  let decimals := match (if isTokenTransfer then tx.tokenDecimal else none) with
    | some d => d
    | none => 18
  let tokenSymbol := (jsStrTruthy tx.tokenSymbol).getD (js "TOKEN")
  let valueStr ← celoFormatUnits tx.value decimals
  let fee ←
    if ¬isTokenTransfer ∧ (jsStrTruthy tx.gasUsed).isSome ∧
        (jsStrTruthy tx.gasPrice).isSome then do
      let gu ← jsBigInt ((jsStrTruthy tx.gasUsed).getD [])
      let gp ← jsBigInt ((jsStrTruthy tx.gasPrice).getD [])
      celoFormatUnits (intToChars (gu * gp)) 18
    else pure []
  let status :=
    if tx.txreceipt_status = some (js "1") ∨ tx.isError = some (js "0") then
      TransactionStatus.SUCCESS
    else if tx.txreceipt_status = some (js "0") ∨ tx.isError = some (js "1") then
      TransactionStatus.FAILED
    else TransactionStatus.SUCCESS
  let txType := detectCeloTransactionType tx
  let actionType :=
    if txType = js "swap" ∨ txType = js "exactInputSingle" ∨
        txType = js "exactInput" then ActionType.SWAP
    else if txType ≠ js "native_transfer" ∧ txType ≠ js "token_transfer" then
      ActionType.CONTRACT
    else if isSender then ActionType.SEND else ActionType.RECEIVE
  let currency :=
    if isTokenTransfer then normalizeTokenSymbol tokenSymbol
    else if txType = js "token_transfer" then
      normalizeTokenSymbol ((detectTokenSymbol tx.contractAddress).getD (js "TOKEN"))
    else js "CELO"
  let explorerUrl :=
    if isTestnet then
      js "https://alfajores.explorer.celo.org/tx/" ++ (tx.hash.getD (js "undefined"))
    else js "https://explorer.celo.org/tx/" ++ (tx.hash.getD (js "undefined"))
  some
    { id := (tx.hash.getD (js "undefined")) ++ js "_" ++ natToChars index
    , date := match jsParseInt tx.timeStamp with
        | some v => JSDate.epochMs (v * 1000)
        | none => JSDate.invalid
    , receivedQuantity := if isSender then [] else valueStr
    , receivedCurrency := if isSender then [] else currency
    , sentQuantity := if isSender then valueStr else []
    , sentCurrency := if isSender then currency else []
    , feeAmount := if ¬isSender ∨ fee = [] then [] else fee
    , feeCurrency := if ¬isSender ∨ fee = [] then [] else js "CELO"
    , hash := tx.hash
    , notes := buildCeloNotes tx isSender txType
    , status := status
    , type := actionType
    , link := explorerUrl
    , tag := mapToAwakenLabel txType (txType == js "native_transfer") isSender }

/-- Embeds `normalizeKaspaAddress` of the Kaspa adapter:
`address.toLowerCase().trim()`. -/
def normalizeKaspaAddress (address : JSStr) : JSStr := jsTrim (jsToLower address)

/-- Raw Kaspa transaction input; the fields are consumed only by the
(out-of-scope, network-bound) fee trace, the parser itself reads only the
length of the input list. -/
structure KaspaInput where
  previous_outpoint_hash : Option JSStr
  previousOutpointHash : Option JSStr
  previous_outpoint_index : Option Nat
  previousOutpointIndex : Option Nat
  deriving DecidableEq, Repr

/-- Raw Kaspa transaction output (`amount`/`value` hold the sompi value,
mirroring the source's `output.amount || output.value || 0` fallback). -/
structure KaspaOutput where
  script_public_key_address : Option JSStr
  scriptPublicKeyAddress : Option JSStr
  amount : Option Nat
  value : Option Nat
  deriving DecidableEq, Repr

/-- Raw Kaspa transaction record, with both snake_case and camelCase field
variants that the source's `||` chains consult. -/
structure KaspaRawTx where
  transaction_id : Option JSStr
  transactionId : Option JSStr
  block_time : Option Int
  blockTime : Option Int
  accepting_block_time : Option Int
  is_accepted : Option Bool
  isAccepted : Option Bool
  subnetwork_id : Option JSStr
  subnetworkId : Option JSStr
  payload : Option JSStr
  inputs : List KaspaInput
  outputs : List KaspaOutput
  deriving DecidableEq, Repr

/-- The output's destination address as the parser's loop reads it:
`(output.script_public_key_address || output.scriptPublicKeyAddress ||
'').toLowerCase()`. -/
def kaspaOutAddr (o : KaspaOutput) : JSStr :=
  jsToLower ((jsOrStr o.script_public_key_address o.scriptPublicKeyAddress).getD [])

/-- The output's amount as the loop reads it:
`BigInt(output.amount || output.value || 0)`. -/
def kaspaOutAmt (o : KaspaOutput) : Nat := jsOrNat o.amount o.value

/-- Sum of output amounts whose destination is the (normalised) user address
(the loop's `totalReceived` accumulator). -/
def kaspaReceivedToSelf (outputs : List KaspaOutput) (normUser : JSStr) : Nat :=
  ((outputs.filter (fun o => kaspaOutAddr o == normUser)).map kaspaOutAmt).sum

/-- Number of outputs destined to the user (the loop's `userOutputCount`). -/
def kaspaUserOutputCount (outputs : List KaspaOutput) (normUser : JSStr) : Nat :=
  (outputs.filter (fun o => kaspaOutAddr o == normUser)).length

/-- Sum of output amounts destined to other addresses (the loop's
`otherOutputValue`). -/
def kaspaSentToOthers (outputs : List KaspaOutput) (normUser : JSStr) : Nat :=
  ((outputs.filter (fun o => !(kaspaOutAddr o == normUser))).map kaspaOutAmt).sum

/-- Embeds `detectKaspaTxType` (Kaspa adapter, lines 778–788). -/
def detectKaspaTxType (subnetworkId : JSStr) (payload : Option JSStr) : JSStr :=
  if subnetworkId ≠ [] ∧ subnetworkId ≠ js "0" ∧
      subnetworkId ≠ js "0000000000000000000000000000000000000000" then
    js "contract_call"
  else if (jsStrTruthy payload).isSome then js "data_attachment"
  else js "native_transfer"

/-- Kaspa `formatUnits` applied to a `BigInt(...).toString()` result with the
default `KASPA_DECIMALS = 8`.  Every call site passes a decimal digit string,
on which the conversion cannot throw, so the `[]` default never fires (see
`kaspaFormatUnits_natToChars` below). -/
def kaspaFmtStr (s : JSStr) : JSStr := (kaspaFormatUnits s 8).getD []

/-- Embeds `buildKaspaNotes` (Kaspa adapter, lines 790–812). -/
def buildKaspaNotes (isSender isReceiver : Bool) (txType : JSStr)
    (netSent netReceived : Nat) : JSStr :=
  let sentStr := if 0 < netSent then kaspaFmtStr (natToChars netSent) else []
  let receivedStr := if 0 < netReceived then kaspaFmtStr (natToChars netReceived) else []
  if txType = js "native_transfer" ∧ isSender ∧ ¬isReceiver then
    js "Sent " ++ sentStr ++ js " KAS"
  else if txType = js "native_transfer" ∧ ¬isSender ∧ isReceiver then
    js "Received " ++ receivedStr ++ js " KAS"
  else if txType = js "native_transfer" ∧ isSender ∧ isReceiver then
    js "Sent " ++ sentStr ++ js " KAS"
  else
    (List.lookup txType
      [ (js "contract_call", js "Kaspa Contract Interaction")
      , (js "data_attachment", js "KAS with Data")
      , (js "native_transfer", js "KAS Transfer") ]).getD
      (js "Kaspa " ++ txType)

/-- Embeds `parseKaspaTransaction` (Kaspa adapter, lines 636–776).
`tracedInputTotal` stands for the awaited result of the network-bound
`getInputAmounts(inputs)` (`none` models the trace throwing, which the
source catches, leaving the fee at `'0'`); `now` stands for `Date.now()`.
The parser itself never throws, so it returns a plain `ParsedTx`. -/
def parseKaspaTransaction (tx : KaspaRawTx) (userAddress : JSStr)
    (tracedInputTotal : Option Nat) (now : Int) (index : Nat) : ParsedTx :=
  let normalizedUserAddress := normalizeKaspaAddress userAddress
  let txId := (jsOrStr tx.transaction_id tx.transactionId).getD []
  let blockTime := ((jsIntTruthy tx.block_time).orElse (fun _ =>
      (jsIntTruthy tx.blockTime).orElse (fun _ =>
        jsIntTruthy tx.accepting_block_time))).getD now
  let isAccepted := jsOrBool tx.is_accepted tx.isAccepted
  let subnetworkId := (jsOrStr tx.subnetwork_id tx.subnetworkId).getD (js "0")
  let outputs := tx.outputs
  let totalReceived := kaspaReceivedToSelf outputs normalizedUserAddress
  let userOutputCount := kaspaUserOutputCount outputs normalizedUserAddress
  let otherOutputValue := kaspaSentToOthers outputs normalizedUserAddress
  let isReceiver := 0 < userOutputCount
  let isSender := 0 < otherOutputValue
  let totalOutputValue := (outputs.map kaspaOutAmt).sum
  let netSent : Nat :=
    if isSender ∧ ¬isReceiver then totalOutputValue
    else if ¬isSender ∧ isReceiver then 0
    else if isSender ∧ isReceiver then otherOutputValue
    else 0
  let netReceived : Nat :=
    if isSender ∧ ¬isReceiver then 0
    else if ¬isSender ∧ isReceiver then totalReceived
    else if isSender ∧ isReceiver then totalReceived
    else 0
  let feeSompi : JSStr :=
    if tx.inputs ≠ [] ∧ isSender then
      match tracedInputTotal with
      | some totalInputAmount =>
        if 0 < (totalInputAmount : Int) - (totalOutputValue : Int) then
          intToChars ((totalInputAmount : Int) - (totalOutputValue : Int))
        else js "0"
      | none => js "0"
    else js "0"
  let txType := detectKaspaTxType subnetworkId tx.payload
  let actionType : ActionType :=
    if txType = js "native_transfer" then
      (if isSender ∧ ¬isReceiver then ActionType.SEND
       else if ¬isSender ∧ isReceiver then ActionType.RECEIVE
       else ActionType.SEND)
    else if txType = js "contract_call" then ActionType.CONTRACT
    else if isSender then ActionType.SEND else ActionType.RECEIVE
  let displaySent : JSStr :=
    if txType = js "native_transfer" then
      (if isSender ∧ ¬isReceiver then kaspaFmtStr (natToChars netSent)
       else if ¬isSender ∧ isReceiver then []
       else kaspaFmtStr (natToChars netSent))
    else if txType = js "contract_call" then []
    else if isSender then kaspaFmtStr (natToChars netSent) else []
  let displayReceived : JSStr :=
    if txType = js "native_transfer" then
      (if isSender ∧ ¬isReceiver then []
       else if ¬isSender ∧ isReceiver then kaspaFmtStr (natToChars netReceived)
       else [])
    else if txType = js "contract_call" then []
    else if isSender then [] else kaspaFmtStr (natToChars netReceived)
  let notes := buildKaspaNotes isSender isReceiver txType netSent netReceived
  { id := txId ++ js "_" ++ natToChars index
  , date := JSDate.epochMs blockTime
  , receivedQuantity := displayReceived
  , receivedCurrency := if displayReceived ≠ [] then js "KAS" else []
  , sentQuantity := displaySent
  , sentCurrency := if displaySent ≠ [] then js "KAS" else []
  , feeAmount := if feeSompi ≠ js "0" then kaspaFmtStr feeSompi else []
  , feeCurrency := if feeSompi ≠ js "0" then js "KAS" else []
  , hash := some txId
  , notes := notes
  , status := if isAccepted then TransactionStatus.SUCCESS
      else TransactionStatus.PENDING
  , type := actionType
  , link := js "https://explorer.kaspa.org/tx/" ++ txId
  , tag := mapToAwakenLabel txType (txType == js "native_transfer")
      (decide isSender) }

/-- Raw Fuel GraphQL transaction input fragment (`InputCoin`). -/
structure FuelInput where
  owner : Option JSStr
  amount : Option Nat
  deriving DecidableEq, Repr

/-- Raw Fuel GraphQL transaction output fragment (`CoinOutput`/`ChangeOutput`);
`toAddr` embeds the source field `to`. -/
structure FuelOutput where
  toAddr : Option JSStr
  amount : Option Nat
  deriving DecidableEq, Repr

/-- Raw Fuel GraphQL status fragment (presence of `reason` marks a
`FailureStatus`, presence of `time` alone a success/submitted status). -/
structure FuelStatus where
  time : Option JSStr
  reason : Option JSStr
  deriving DecidableEq, Repr

/-- Raw Fuel GraphQL transaction node. -/
structure FuelNode where
  id : Option JSStr
  status : Option FuelStatus
  inputs : Option (List FuelInput)
  outputs : Option (List FuelOutput)
  deriving DecidableEq, Repr

/-- Embeds `parseFuelTransaction` of `src/src/adapters/fuel.ts`
(lines 107–189).  `now` stands for `new Date()`'s current time.  Amounts are
modelled as already-parsed naturals (the GraphQL scalars are decimal digit
strings; an absent amount contributes nothing to the sums, exactly as the
source's `&& input.amount` guard). -/
def parseFuelTransaction (node : FuelNode) (userAddress : JSStr) (now : Int)
    (index : Nat) : ParsedTx :=
  let date := match node.status with
    | some st => (match jsStrTruthy st.time with
        | some tm => JSDate.ofString tm
        | none => JSDate.epochMs now)
    | none => JSDate.epochMs now
  let sentAmount : Nat :=
    (((node.inputs.getD []).filter (fun i => i.owner == some userAddress)).map
      (fun i => i.amount.getD 0)).sum
  let receivedAmount : Nat :=
    (((node.outputs.getD []).filter (fun o => o.toAddr == some userAddress)).map
      (fun o => o.amount.getD 0)).sum
  let decimals := 9
  let finalType : ActionType :=
    if sentAmount < receivedAmount then ActionType.RECEIVE
    else if receivedAmount < sentAmount then ActionType.SEND
    else ActionType.CONTRACT
  let finalReceived : JSStr :=
    if sentAmount < receivedAmount then
      fuelFormatUnits ((receivedAmount : Int) - (sentAmount : Int)) decimals
    else []
  let finalSent : JSStr :=
    if sentAmount < receivedAmount then []
    else if receivedAmount < sentAmount then
      fuelFormatUnits ((sentAmount : Int) - (receivedAmount : Int)) decimals
    else js "0"
  let status := match node.status with
    | none => TransactionStatus.UNKNOWN
    | some st =>
      if (jsStrTruthy st.reason).isSome then TransactionStatus.FAILED
      else if (jsStrTruthy st.time).isSome then TransactionStatus.SUCCESS
      else TransactionStatus.UNKNOWN
  { id := (jsStrTruthy node.id).getD (js "fuel-" ++ natToChars index)
  , date := date
  , receivedQuantity := finalReceived
  , receivedCurrency := if finalReceived ≠ [] then js "ETH" else []
  , sentQuantity := finalSent
  , sentCurrency := if finalSent ≠ [] then js "ETH" else []
  , feeAmount := []
  , feeCurrency := js "ETH"
  , hash := node.id
  , notes := js "Fuel Transaction"
  , status := status
  , type := finalType
  , link := js "https://app.fuel.network/transaction/" ++
      (node.id.getD (js "undefined"))
  , tag := mapToAwakenLabel
      (if finalType = ActionType.SEND ∨ finalType = ActionType.RECEIVE then
        js "native_transfer" else js "contract_call")
      (decide (finalType = ActionType.SEND ∨ finalType = ActionType.RECEIVE))
      (decide (finalType = ActionType.SEND)) }

/-- Integer part of a formatted decimal string, for reading it back: the
characters before the first `'.'`. -/
def intPartOf (s : JSStr) : JSStr := s.takeWhile (· != '.')

/-- Fractional part of a formatted decimal string: the characters after the
first `'.'` (empty when there is no dot). -/
def fracPartOf (s : JSStr) : JSStr := (s.dropWhile (· != '.')).drop 1

/-- Exact rational value denoted by a formatted decimal string
`I` or `I.F`: `I + F / 10 ^ |F|`. -/
def ratRead (s : JSStr) : ℚ :=
  (valOfChars (intPartOf s) : ℚ) +
    (valOfChars (fracPartOf s) : ℚ) / 10 ^ (fracPartOf s).length

theorem charVal_digitChar : ∀ d < 10, charVal (digitChar d) = d := by decide

theorem isDigit_digitChar : ∀ d < 10, (digitChar d).isDigit = true := by decide

theorem valOfChars_foldl_init (b : JSStr) :
    ∀ a0 : Nat, b.foldl (fun a c => 10 * a + charVal c) a0 =
      a0 * 10 ^ b.length + b.foldl (fun a c => 10 * a + charVal c) 0 := by
  induction b with
  | nil => intro a0; simp
  | cons c t ih =>
    intro a0
    simp only [List.foldl_cons, List.length_cons]
    rw [ih (10 * a0 + charVal c), ih (10 * 0 + charVal c)]
    ring

theorem valOfChars_append (a b : JSStr) :
    valOfChars (a ++ b) = valOfChars a * 10 ^ b.length + valOfChars b := by
  unfold valOfChars
  rw [List.foldl_append, valOfChars_foldl_init]

theorem valOfChars_replicate_zero (k : Nat) :
    valOfChars (List.replicate k '0') = 0 := by
  induction k with
  | zero => rfl
  | succ k ih =>
    have : List.replicate (k + 1) '0' = '0' :: List.replicate k '0' :=
      List.replicate_succ '0' k
    rw [this]
    show (List.replicate k '0').foldl (fun a c => 10 * a + charVal c)
      (10 * 0 + charVal '0') = 0
    have hc : 10 * 0 + charVal '0' = 0 := by decide
    rw [hc]
    exact ih

theorem ofDigits_digitsFuel :
    ∀ fuel n, n ≤ fuel → Nat.ofDigits 10 (digitsFuel fuel n) = n := by
  intro fuel
  induction fuel with
  | zero =>
    intro n h
    have : n = 0 := Nat.le_zero.mp h
    subst this
    simp [digitsFuel, Nat.ofDigits]
  | succ fuel ih =>
    intro n h
    match n with
    | 0 => simp [digitsFuel, Nat.ofDigits]
    | m + 1 =>
      show Nat.ofDigits 10 ((m + 1) % 10 :: digitsFuel fuel ((m + 1) / 10)) = m + 1
      rw [Nat.ofDigits_cons]
      have hdiv : (m + 1) / 10 ≤ fuel := by
        have := Nat.div_lt_self (Nat.succ_pos m) (by norm_num : 1 < 10)
        omega
      rw [ih _ hdiv]
      omega

theorem digitsFuel_lt :
    ∀ fuel n d, d ∈ digitsFuel fuel n → d < 10 := by
  intro fuel
  induction fuel with
  | zero => intro n d hd; simp [digitsFuel] at hd
  | succ fuel ih =>
    intro n d hd
    match n with
    | 0 => simp [digitsFuel] at hd
    | m + 1 =>
      rcases List.mem_cons.mp hd with h | h
      · subst h; exact Nat.mod_lt _ (by norm_num)
      · exact ih _ _ h

theorem valOfChars_map_digits :
    ∀ L : List Nat, (∀ d ∈ L, d < 10) →
      valOfChars (L.reverse.map digitChar) = Nat.ofDigits 10 L := by
  intro L
  induction L with
  | nil => intro _; rfl
  | cons d t ih =>
    intro h
    have hd : d < 10 := h d (List.mem_cons_self d t)
    have ht : ∀ x ∈ t, x < 10 := fun x hx => h x (List.mem_cons_of_mem d hx)
    rw [List.reverse_cons, List.map_append, valOfChars_append, ih ht,
      Nat.ofDigits_cons]
    have h1 : valOfChars [digitChar d] = d := by
      show 10 * 0 + charVal (digitChar d) = d
      rw [charVal_digitChar d hd]
      omega
    simp only [List.map_cons, List.map_nil, List.length_cons, List.length_nil]
    rw [h1]
    ring

theorem valOfChars_natToChars (n : Nat) : valOfChars (natToChars n) = n := by
  by_cases hn : n = 0
  · subst hn; decide
  · unfold natToChars
    rw [if_neg hn]
    show valOfChars ((digitsFuel n n).reverse.map digitChar) = n
    rw [valOfChars_map_digits _ (fun d hd => digitsFuel_lt n n d hd)]
    exact ofDigits_digitsFuel n n le_rfl

theorem natToChars_all_digits (n : Nat) :
    ∀ c ∈ natToChars n, c.isDigit = true := by
  by_cases hn : n = 0
  · subst hn; decide
  · unfold natToChars
    rw [if_neg hn]
    intro c hc
    rcases List.mem_map.mp hc with ⟨d, hd, rfl⟩
    exact isDigit_digitChar d (digitsFuel_lt n n d (List.mem_reverse.mp hd))

theorem natToChars_ne_nil (n : Nat) : natToChars n ≠ [] := by
  intro h
  have h1 := valOfChars_natToChars n
  rw [h] at h1
  have hn0 : n = 0 := by simpa [valOfChars] using h1.symm
  subst hn0
  exact absurd h (by decide)

theorem intToChars_natCast (n : Nat) : intToChars (n : Int) = natToChars n := by
  unfold intToChars
  rw [if_neg (not_lt.mpr (Int.natCast_nonneg n)), Int.natAbs_ofNat]

theorem isDigit_ne_of_not {c x : Char} (hx : x.isDigit = false)
    (hc : c.isDigit = true) : c ≠ x := by
  intro h
  rw [h, hx] at hc
  exact Bool.false_ne_true hc

theorem jsBigInt_digits (s : JSStr) (hne : s ≠ [])
    (hdig : ∀ c ∈ s, c.isDigit = true) :
    jsBigInt s = some ((valOfChars s : Int)) := by
  unfold jsBigInt
  have hhead : ∀ x : Char, x.isDigit = false → s.head? ≠ some x := by
    intro x hx h
    match s, h with
    | c :: t, h =>
      have : c = x := by simpa using h
      subst this
      have := hdig c (List.mem_cons_self c t)
      rw [hx] at this
      exact Bool.false_ne_true this
  rw [if_neg hne, if_neg (hhead '-' (by decide)), if_neg (hhead '+' (by decide)),
    if_pos (List.all_eq_true.mpr (fun c hc => hdig c hc))]

theorem jsStartsWithMinus_digits (s : JSStr)
    (hdig : ∀ c ∈ s, c.isDigit = true) : jsStartsWithMinus s = false := by
  unfold jsStartsWithMinus
  match s with
  | [] => rfl
  | c :: t =>
    have hc := hdig c (List.mem_cons_self c t)
    have : c ≠ '-' := isDigit_ne_of_not (by decide) hc
    simp [this]

theorem stripTrailingZeros_spec (s : JSStr) :
    ∃ k, s = stripTrailingZeros s ++ List.replicate k '0' := by
  refine ⟨(s.reverse.takeWhile (· == '0')).length, ?_⟩
  unfold stripTrailingZeros
  have hrep : s.reverse.takeWhile (· == '0') =
      List.replicate (s.reverse.takeWhile (· == '0')).length '0' := by
    apply List.eq_replicate_iff.mpr
    refine ⟨rfl, fun b hb => ?_⟩
    have := List.mem_takeWhile_imp hb
    exact eq_of_beq this
  conv_lhs => rw [← s.reverse_reverse,
    ← List.takeWhile_append_dropWhile (p := (· == '0')) (l := s.reverse)]
  rw [List.reverse_append]
  congr 1
  conv_lhs => rw [hrep]
  rw [List.reverse_replicate]

theorem stripTrailingZeros_val (s : JSStr) :
    valOfChars s = valOfChars (stripTrailingZeros s) *
      10 ^ (s.length - (stripTrailingZeros s).length) ∧
    (stripTrailingZeros s).length ≤ s.length := by
  obtain ⟨k, hk⟩ := stripTrailingZeros_spec s
  constructor
  · conv_lhs => rw [hk]
    rw [valOfChars_append, valOfChars_replicate_zero, List.length_replicate]
    have hlen : s.length = (stripTrailingZeros s).length + k := by
      conv_lhs => rw [hk]
      simp
    rw [hlen]
    simp
  · conv_rhs => rw [hk]
    simp

theorem stripTrailingZeros_sublist (s : JSStr) :
    ∀ c ∈ stripTrailingZeros s, c ∈ s := by
  intro c hc
  obtain ⟨k, hk⟩ := stripTrailingZeros_spec s
  rw [hk]
  exact List.mem_append_left _ hc

theorem valOfChars_jsPadStart (s : JSStr) (t : Nat) :
    valOfChars (jsPadStart s t '0') = valOfChars s := by
  unfold jsPadStart
  rw [valOfChars_append, valOfChars_replicate_zero]
  ring

theorem takeWhile_all_true (p : Char → Bool) (l : JSStr)
    (h : ∀ c ∈ l, p c = true) : l.takeWhile p = l := by
  induction l with
  | nil => rfl
  | cons c t ih =>
    rw [List.takeWhile_cons, h c (List.mem_cons_self c t)]
    simp only [ite_true]
    rw [ih (fun x hx => h x (List.mem_cons_of_mem c hx))]

theorem dropWhile_all_true (p : Char → Bool) (l : JSStr)
    (h : ∀ c ∈ l, p c = true) : l.dropWhile p = [] := by
  induction l with
  | nil => rfl
  | cons c t ih =>
    rw [List.dropWhile_cons, h c (List.mem_cons_self c t)]
    simp only [ite_true]
    exact ih (fun x hx => h x (List.mem_cons_of_mem c hx))

theorem takeWhile_append_stop (p : Char → Bool) (I F : JSStr) (x : Char)
    (hI : ∀ c ∈ I, p c = true) (hx : p x = false) :
    (I ++ x :: F).takeWhile p = I ∧ (I ++ x :: F).dropWhile p = x :: F := by
  induction I with
  | nil =>
    constructor
    · rw [List.nil_append, List.takeWhile_cons, hx]; rfl
    · rw [List.nil_append, List.dropWhile_cons, hx]; rfl
  | cons c t ih =>
    have hc := hI c (List.mem_cons_self c t)
    have ht := ih (fun y hy => hI y (List.mem_cons_of_mem c hy))
    constructor
    · rw [List.cons_append, List.takeWhile_cons, hc]
      simp only [ite_true]
      rw [ht.1]
    · rw [List.cons_append, List.dropWhile_cons, hc]
      simp only [ite_true]
      exact ht.2

theorem readback_parts (I F : JSStr) (hI : ∀ c ∈ I, c.isDigit = true) :
    intPartOf (if F = [] then I else I ++ ['.'] ++ F) = I ∧
    fracPartOf (if F = [] then I else I ++ ['.'] ++ F) = F := by
  have hne : ∀ c ∈ I, (c != '.') = true := by
    intro c hc
    have h1 : c ≠ '.' := isDigit_ne_of_not (by decide) (hI c hc)
    simpa using h1
  by_cases hF : F = []
  · subst hF
    rw [if_pos rfl]
    unfold intPartOf fracPartOf
    rw [takeWhile_all_true _ I hne, dropWhile_all_true _ I hne]
    exact ⟨rfl, rfl⟩
  · rw [if_neg hF]
    have hassoc : I ++ ['.'] ++ F = I ++ ('.' :: F) := by
      rw [List.append_assoc]; rfl
    rw [hassoc]
    unfold intPartOf fracPartOf
    have h := takeWhile_append_stop (· != '.') I F '.' hne (by decide)
    rw [h.1, h.2]
    exact ⟨rfl, rfl⟩

theorem padSliceFormat_spec (s : JSStr) (d : Nat) (hd : 1 ≤ d)
    (hs : ∀ c ∈ s, c.isDigit = true) :
    ∃ I F : JSStr,
      padSliceFormat s d = (if F = [] then I else I ++ ['.'] ++ F) ∧
      (∀ c ∈ I, c.isDigit = true) ∧ (∀ c ∈ F, c.isDigit = true) ∧
      I ≠ [] ∧ F.length ≤ d ∧
      valOfChars I * 10 ^ d + valOfChars F * 10 ^ (d - F.length) =
        valOfChars s := by
  have hdne : d ≠ 0 := by omega
  set padded := jsPadStart s (d + 1) '0' with hpad
  have hplen : d + 1 ≤ padded.length := by
    rw [hpad]
    unfold jsPadStart
    rw [List.length_append, List.length_replicate]
    omega
  set I := padded.take (padded.length - d) with hI
  set Fraw := padded.drop (padded.length - d) with hFrawdef
  have hsplit : padded = I ++ Fraw := (List.take_append_drop _ _).symm
  have hFrawlen : Fraw.length = d := by
    rw [hFrawdef, List.length_drop]
    omega
  have hIlen : 0 < I.length := by
    rw [hI, List.length_take]
    omega
  set F := stripTrailingZeros Fraw with hF
  obtain ⟨hval, hlen⟩ := stripTrailingZeros_val Fraw
  have hpdig : ∀ c ∈ padded, c.isDigit = true := by
    intro c hc
    rw [hpad] at hc
    unfold jsPadStart at hc
    rcases List.mem_append.mp hc with h | h
    · rw [List.eq_of_mem_replicate h]; decide
    · exact hs c h
  refine ⟨I, F, ?_, ?_, ?_, ?_, ?_, ?_⟩
  · show padSliceFormat s d = _
    unfold padSliceFormat jsSliceDropLast jsSliceLast
    simp only [if_neg hdne]
  · exact fun c hc => hpdig c (List.take_subset _ _ (hI ▸ hc))
  · intro c hc
    exact hpdig c (List.drop_subset _ _ (hFrawdef ▸ stripTrailingZeros_sublist Fraw c (hF ▸ hc)))
  · exact List.ne_nil_of_length_pos hIlen
  · rw [← hFrawlen]; exact hlen
  · have h1 : valOfChars padded = valOfChars s := by
      rw [hpad]; exact valOfChars_jsPadStart s (d + 1)
    have h2 : valOfChars padded =
        valOfChars I * 10 ^ Fraw.length + valOfChars Fraw := by
      conv_lhs => rw [hsplit]
      exact valOfChars_append I Fraw
    rw [← h1, h2, hFrawlen, hval, ← hF, hFrawlen]

theorem natToChars_ne_zeroStr (n : Nat) (hn : n ≠ 0) : natToChars n ≠ js "0" := by
  intro h
  have h1 := valOfChars_natToChars n
  rw [h] at h1
  have : valOfChars (js "0") = 0 := by decide
  rw [this] at h1
  exact hn h1.symm

theorem creditcoinFormatUnits_natToChars (n d : Nat) (hn : n ≠ 0) :
    creditcoinFormatUnits (natToChars n) d =
      some (padSliceFormat (natToChars n) d) := by
  have hne := natToChars_ne_nil n
  have hdig := natToChars_all_digits n
  have hsw : jsStartsWithMinus (natToChars n) = false :=
    jsStartsWithMinus_digits _ hdig
  unfold creditcoinFormatUnits
  rw [if_neg (by push_neg; exact ⟨hne, natToChars_ne_zeroStr n hn⟩)]
  rw [hsw]
  simp only [Bool.false_eq_true, if_false]
  rw [jsBigInt_digits _ hne hdig, valOfChars_natToChars]
  have hz : (n : Int) ≠ 0 := by exact_mod_cast hn
  simp only [hz, if_false, intToChars_natCast]

theorem kaspaFormatUnits_natToChars (n d : Nat) (hn : n ≠ 0) :
    kaspaFormatUnits (natToChars n) d =
      some (padSliceFormat (natToChars n) d) := by
  have hne := natToChars_ne_nil n
  have hdig := natToChars_all_digits n
  unfold kaspaFormatUnits
  rw [if_neg (by push_neg; exact ⟨hne, natToChars_ne_zeroStr n hn⟩)]
  rw [jsBigInt_digits _ hne hdig, valOfChars_natToChars]
  have hz : (n : Int) ≠ 0 := by exact_mod_cast hn
  simp only [hz, if_false, intToChars_natCast]

theorem padSliceFormat_ne_nil (s : JSStr) (d : Nat) (hd : 1 ≤ d) :
    padSliceFormat s d ≠ [] := by
  unfold padSliceFormat jsSliceDropLast jsSliceLast
  simp only [if_neg (by omega : d ≠ 0)]
  split
  · apply List.ne_nil_of_length_pos
    unfold jsPadStart
    rw [List.length_take, List.length_append, List.length_replicate]
    omega
  · simp

theorem kaspaFmtStr_natToChars_ne_nil (n : Nat) :
    kaspaFmtStr (natToChars n) ≠ [] := by
  by_cases hn : n = 0
  · subst hn; decide
  · unfold kaspaFmtStr
    rw [kaspaFormatUnits_natToChars n 8 hn]
    exact padSliceFormat_ne_nil _ 8 (by omega)

theorem kaspaFmtStr_eq (n : Nat) :
    kaspaFormatUnits (natToChars n) 8 = some (kaspaFmtStr (natToChars n)) := by
  by_cases hn : n = 0
  · subst hn; decide
  · unfold kaspaFmtStr
    rw [kaspaFormatUnits_natToChars n 8 hn]
    rfl

/-- C2 (amended): for every natural `n` and decimals count `d ∈ [1,18]`, the
fixed-point formatter applied to the decimal string of `n` succeeds, agrees
with the Fuel variant, and yields a decimal string whose exact rational
read-back rescaled by `10 ^ d` is `n` — exact integer arithmetic, no drift.
(The claim's range `d ∈ [0,18]` fails at `d = 0`, see the counterexample.) -/
theorem formatUnits_exact_roundtrip (n d : Nat) (h1 : 1 ≤ d) (hd18 : d ≤ 18) :
    ∃ out : JSStr,
      creditcoinFormatUnits (natToChars n) d = some out ∧
      fuelFormatUnits (n : Int) d = out ∧
      ratRead out * 10 ^ d = (n : ℚ) := by
  by_cases hn : n = 0
  · subst hn
    refine ⟨js "0", by simp [creditcoinFormatUnits, natToChars],
      by norm_num [fuelFormatUnits], ?_⟩
    have h0 : ratRead (js "0") = 0 := by
      have hi : intPartOf (js "0") = js "0" := by decide
      have hf : fracPartOf (js "0") = [] := by decide
      have hv : valOfChars (js "0") = 0 := by decide
      unfold ratRead
      rw [hi, hf, hv]
      norm_num [valOfChars]
    rw [h0]
    push_cast
    ring
  · obtain ⟨I, F, hout, hIdig, hFdig, hIne, hFlen, hkey⟩ :=
      padSliceFormat_spec (natToChars n) d h1 (natToChars_all_digits n)
    refine ⟨padSliceFormat (natToChars n) d,
      creditcoinFormatUnits_natToChars n d hn, ?_, ?_⟩
    · unfold fuelFormatUnits
      have hz : (n : Int) ≠ 0 := by exact_mod_cast hn
      rw [if_neg hz, intToChars_natCast]
    · obtain ⟨hip, hfp⟩ := readback_parts I F hIdig
      rw [valOfChars_natToChars] at hkey
      unfold ratRead
      rw [hout, hip, hfp]
      have h10 : (10 : ℚ) ^ F.length ≠ 0 := pow_ne_zero _ (by norm_num)
      have hsplit : (10 : ℚ) ^ d = 10 ^ (d - F.length) * 10 ^ F.length := by
        rw [← pow_add]
        congr 1
        omega
      have hdist :
          ((valOfChars I : ℚ) + (valOfChars F : ℚ) / 10 ^ F.length) * 10 ^ d =
            (valOfChars I : ℚ) * 10 ^ d +
              (valOfChars F : ℚ) * 10 ^ (d - F.length) := by
        rw [hsplit]
        field_simp
        ring
      rw [hdist, ← hkey]
      push_cast
      ring

/-- C2 witness: the round-trip theorem applied at `n = 1500000000000000000`,
`d = 18`, together with the claim's three concrete examples evaluated. -/
theorem formatUnits_exact_roundtrip_witness :
    ((1 : Nat) ≤ 18 ∧ (18 : Nat) ≤ 18) ∧
    (∃ out : JSStr,
      creditcoinFormatUnits (natToChars 1500000000000000000) 18 = some out ∧
      fuelFormatUnits (1500000000000000000 : Int) 18 = out ∧
      ratRead out * 10 ^ 18 = (1500000000000000000 : ℚ)) ∧
    creditcoinFormatUnits (js "1500000000000000000") 18 = some (js "1.5") ∧
    creditcoinFormatUnits (js "1000000000000000000") 18 = some (js "1") ∧
    creditcoinFormatUnits (js "0") 18 = some (js "0") :=
  ⟨⟨by decide, by decide⟩,
    formatUnits_exact_roundtrip 1500000000000000000 18 (by decide) (by decide),
    by decide, by decide, by decide⟩

/-- C2 counterexample: at `d = 0` (included in the claim's range `[0,18]`)
the JavaScript `slice(0, -0)` quirk empties the integer part, so
`formatUnits("5", 0)` returns `".5"`, whose exact read-back rescaled by
`10 ^ 0` is `1/2`, not `5`. -/
theorem formatUnits_roundtrip_fails_at_zero_decimals :
    creditcoinFormatUnits (natToChars 5) 0 = some (js ".5") ∧
    ratRead (js ".5") * 10 ^ (0 : Nat) ≠ ((5 : Nat) : ℚ) := by
  constructor
  · decide
  · have hi : intPartOf (js ".5") = [] := by decide
    have hf : fracPartOf (js ".5") = js "5" := by decide
    have hv : valOfChars (js "5") = 5 := by decide
    have hl : (js "5").length = 1 := by decide
    unfold ratRead
    rw [hi, hf, hv, hl]
    norm_num [valOfChars]

theorem mem_of_lookup_eq_some {l : List (JSStr × JSStr)} {k v : JSStr}
    (h : List.lookup k l = some v) : (k, v) ∈ l := by
  induction l with
  | nil => simp [List.lookup] at h
  | cons p t ih =>
    obtain ⟨a, b⟩ := p
    by_cases hk : k = a
    · subst hk
      simp only [List.lookup_cons, beq_self_eq_true, Option.some.injEq] at h
      subst h
      exact List.mem_cons_self _ _
    · have hb : (k == a) = false := beq_false_of_ne hk
      simp only [List.lookup_cons, hb] at h
      exact List.mem_cons_of_mem _ (ih h)

/-- C3 counterexample: the claim includes the empty method-name string, but
the `if (!methodName) return ''` guard runs before the native-transfer
branch, so `mapToAwakenLabel('', true, true)` is `''`, not `'payment'`. -/
theorem mapToAwakenLabel_empty_string_escapes :
    mapToAwakenLabel (js "") true true = js "" ∧
    mapToAwakenLabel (js "") true true ≠ js "payment" ∧
    mapToAwakenLabel (js "") true false ≠ js "receive" := by
  refine ⟨by decide, by decide, by decide⟩

/-- C3 (amended): for every non-empty method-name string, a native transfer
maps to `'payment'` for the sender and `'receive'` otherwise, ignoring the
method name; the empty string instead hits the falsy-guard and yields `''`. -/
theorem mapToAwakenLabel_native_ignores_method (s : JSStr) (hs : s ≠ []) :
    mapToAwakenLabel s true true = js "payment" ∧
    mapToAwakenLabel s true false = js "receive" := by
  unfold mapToAwakenLabel
  rw [if_neg hs, if_neg hs]
  exact ⟨rfl, rfl⟩

/-- C3 witness: the amended theorem applied at the method name
`"anything"`. -/
theorem mapToAwakenLabel_native_ignores_method_witness :
    (js "anything" ≠ []) ∧
    mapToAwakenLabel (js "anything") true true = js "payment" ∧
    mapToAwakenLabel (js "anything") true false = js "receive" :=
  ⟨by decide,
    (mapToAwakenLabel_native_ignores_method (js "anything") (by decide)).1,
    (mapToAwakenLabel_native_ignores_method (js "anything") (by decide)).2⟩

/-- C8: with `isNativeTransfer = false` the mapper returns the empty string
for `supply` and all the other kinds missing from its fixed table, and any
non-empty result is drawn from the closed vocabulary
`payment / receive / swap / add_liquidity / remove_liquidity`. -/
theorem mapToAwakenLabel_conservative :
    (∀ b : Bool, mapToAwakenLabel (js "supply") false b = []) ∧
    (∀ b : Bool, ∀ k ∈ [js "stake", js "claim", js "claim_rewards",
        js "deposit", js "withdraw", js "borrow", js "repay",
        js "token_approve", js "multicall", js "contract_call",
        js "contract_creation"],
      mapToAwakenLabel k false b = []) ∧
    (∀ (s : JSStr) (b : Bool), mapToAwakenLabel s false b ≠ [] →
      mapToAwakenLabel s false b ∈
        [js "payment", js "receive", js "swap", js "add_liquidity",
         js "remove_liquidity"]) := by
  refine ⟨by decide, by decide, ?_⟩
  intro s b h
  by_cases hs : s = []
  · subst hs
    exact absurd (by simp [mapToAwakenLabel] : mapToAwakenLabel [] false b = []) h
  · unfold mapToAwakenLabel at h ⊢
    rw [if_neg hs] at h ⊢
    simp only [Bool.false_eq_true, if_false] at h ⊢
    cases hl : List.lookup s METHOD_TO_AWAKEN_LABEL with
    | none => simp [hl] at h
    | some v =>
      have hmem := mem_of_lookup_eq_some hl
      have hvals : ∀ p ∈ METHOD_TO_AWAKEN_LABEL,
          p.2 ∈ [js "payment", js "receive", js "swap", js "add_liquidity",
            js "remove_liquidity"] := by decide
      exact hvals (s, v) hmem

/-- C8 witness: the closed-vocabulary part applied at the kind `"swap"`,
plus the `supply` part at `b = true`. -/
theorem mapToAwakenLabel_conservative_witness :
    mapToAwakenLabel (js "supply") false true = [] ∧
    (mapToAwakenLabel (js "swap") false true ≠ [] →
      mapToAwakenLabel (js "swap") false true ∈
        [js "payment", js "receive", js "swap", js "add_liquidity",
         js "remove_liquidity"]) :=
  ⟨mapToAwakenLabel_conservative.1 true,
    mapToAwakenLabel_conservative.2.2 (js "swap") true⟩

/-- C4 counterexample: the Celo `formatUnits` has no negative clamp, so on
the claim's own example input `"-5"` it returns
`"0.0000000000000000-5"` — not `"0"`, and containing a minus sign. -/
theorem celoFormatUnits_negative_not_clamped :
    celoFormatUnits (js "-5") 18 = some (js "0.0000000000000000-5") ∧
    celoFormatUnits (js "-5") 18 ≠ some (js "0") ∧
    ('-') ∈ js "0.0000000000000000-5" := by
  refine ⟨by decide, by decide, by decide⟩

/-- C4 (amended): the Creditcoin and Humanity formatters clamp every
`'-'`-prefixed input to `"0"`; the Celo formatter lacks the clamp and emits a
minus-bearing string on `"-5"`; malformed input that reaches the `BigInt`
conversion throws (modelled `none`) rather than yielding `"0"`. -/
theorem negative_input_clamp (s : JSStr) (d : Nat)
    (h : jsStartsWithMinus s = true) :
    creditcoinFormatUnits s d = some (js "0") ∧
    humanityFormatUnits s d = some (js "0") ∧
    creditcoinFormatUnits (js "abc") 18 = none ∧
    celoFormatUnits (js "-5") 18 = some (js "0.0000000000000000-5") := by
  have hs : s ≠ [] := by
    intro he
    subst he
    simp [jsStartsWithMinus] at h
  have h0 : s ≠ js "0" := by
    intro he
    rw [he] at h
    exact absurd h (by decide)
  refine ⟨?_, ?_, by decide, by decide⟩
  · unfold creditcoinFormatUnits
    rw [if_neg (by push_neg; exact ⟨hs, h0⟩), h]
    simp
  · unfold humanityFormatUnits
    rw [if_neg (by push_neg; exact ⟨hs, h0⟩), h]
    simp

/-- C4 witness: the clamp theorem applied at the claim's input `"-5"` with
18 decimals. -/
theorem negative_input_clamp_witness :
    jsStartsWithMinus (js "-5") = true ∧
    creditcoinFormatUnits (js "-5") 18 = some (js "0") ∧
    humanityFormatUnits (js "-5") 18 = some (js "0") :=
  ⟨by decide, (negative_input_clamp (js "-5") 18 (by decide)).1,
    (negative_input_clamp (js "-5") 18 (by decide)).2.1⟩

/-- C7: the EVM-style intent classifiers (Creditcoin and Humanity) follow
the spec's decision order: no `to` address ⇒ `contract_creation`; otherwise
empty call data (absent, `''` or `'0x'`) ⇒ `native_transfer`; otherwise the
`0xa9059cbb` selector ⇒ `token_transfer`; and a selector missing from the
table ⇒ `contract_call`. -/
theorem detect_type_decision_order (tx : EvmRawTx) :
    ((tx.toAddr = none ∨ tx.toAddr = some []) →
      detectTransactionType tx = js "contract_creation" ∧
      humanityDetectTransactionType tx = js "contract_creation") ∧
    (tx.toAddr ≠ none → tx.toAddr ≠ some [] →
      (tx.input = none ∨ tx.input = some [] ∨ tx.input = some (js "0x")) →
      detectTransactionType tx = js "native_transfer" ∧
      humanityDetectTransactionType tx = js "native_transfer") ∧
    (tx.toAddr ≠ none → tx.toAddr ≠ some [] →
      ∀ rest : JSStr, tx.input = some (js "0xa9059cbb" ++ rest) →
      detectTransactionType tx = js "token_transfer" ∧
      humanityDetectTransactionType tx = js "token_transfer") ∧
    (tx.toAddr ≠ none → tx.toAddr ≠ some [] →
      ∀ input0 : JSStr, tx.input = some input0 → input0 ≠ [] →
        input0 ≠ js "0x" → 2 < input0.length →
      (List.lookup (jsToLower (input0.take 10)) creditcoinMethodSignatures =
          none → detectTransactionType tx = js "contract_call") ∧
      (List.lookup (jsToLower (input0.take 10)) humanityMethodSignatures =
          none → humanityDetectTransactionType tx = js "contract_call")) := by
  refine ⟨?_, ?_, ?_, ?_⟩
  · intro h
    unfold detectTransactionType humanityDetectTransactionType
    rw [if_pos h, if_pos h]
    exact ⟨rfl, rfl⟩
  · intro h1 h2 h3
    have hto : ¬(tx.toAddr = none ∨ tx.toAddr = some []) := by
      push_neg; exact ⟨h1, h2⟩
    have hin : evmInputOf tx = js "0x" := by
      unfold evmInputOf
      rcases h3 with h | h | h <;> rw [h] <;> simp
    unfold detectTransactionType humanityDetectTransactionType
    rw [if_neg hto, if_neg hto, hin]
    norm_num
  · intro h1 h2 rest hrest
    have hto : ¬(tx.toAddr = none ∨ tx.toAddr = some []) := by
      push_neg; exact ⟨h1, h2⟩
    have hin : evmInputOf tx = js "0xa9059cbb" ++ rest := by
      unfold evmInputOf
      rw [hrest]
      have : js "0xa9059cbb" ++ rest ≠ [] := by
        intro h
        have := congrArg List.length h
        simp [js] at this
      simp [this]
    have hlen : (js "0xa9059cbb").length = 10 := by decide
    have htake : (js "0xa9059cbb" ++ rest).take 10 = js "0xa9059cbb" := by
      rw [← hlen, List.take_left]
    have hcond : evmInputOf tx ≠ [] ∧ evmInputOf tx ≠ js "0x" ∧
        2 < (evmInputOf tx).length := by
      rw [hin]
      refine ⟨?_, ?_, ?_⟩
      · intro h
        have := congrArg List.length h
        simp [js] at this
      · intro h
        have := congrArg List.length h
        rw [List.length_append] at this
        simp [js] at this
        omega
      · rw [List.length_append, hlen]
        omega
    unfold detectTransactionType humanityDetectTransactionType
    rw [if_neg hto, if_neg hto, hin, htake]
    have hmid : jsToLower (js "0xa9059cbb") = js "0xa9059cbb" := by decide
    rw [hmid]
    rw [if_pos (hin ▸ hcond), if_pos (hin ▸ hcond)]
    have hc : List.lookup (js "0xa9059cbb") creditcoinMethodSignatures =
        some (js "token_transfer") := by decide
    have hh : List.lookup (js "0xa9059cbb") humanityMethodSignatures =
        some (js "token_transfer") := by decide
    rw [hc, hh]
    exact ⟨rfl, rfl⟩
  · intro h1 h2 input0 hi hne h0x hlen
    have hto : ¬(tx.toAddr = none ∨ tx.toAddr = some []) := by
      push_neg; exact ⟨h1, h2⟩
    have hin : evmInputOf tx = input0 := by
      unfold evmInputOf
      rw [hi]
      simp [hne]
    have hcond : evmInputOf tx ≠ [] ∧ evmInputOf tx ≠ js "0x" ∧
        2 < (evmInputOf tx).length := by
      rw [hin]; exact ⟨hne, h0x, hlen⟩
    constructor
    · intro hmiss
      unfold detectTransactionType
      rw [if_neg hto, hin, if_pos (hin ▸ hcond), hmiss]
    · intro hmiss
      unfold humanityDetectTransactionType
      rw [if_neg hto, hin, if_pos (hin ▸ hcond), hmiss]

/-- C7 witness: the decision-order theorem applied to a concrete record with
a `to` address and an input starting with the `0xa9059cbb` selector. -/
theorem detect_type_decision_order_witness :
    detectTransactionType
      { fromAddr := js "0xa", toAddr := some (js "0xb"), value := js "5"
      , input := some (js "0xa9059cbb" ++ js "00ff"), gasUsed := js "21000"
      , gasPrice := js "1", timeStamp := js "1700000000"
      , hash := some (js "0xdead"), txreceipt_status := some (js "1") } =
      js "token_transfer" :=
  ((detect_type_decision_order _).2.2.1 (by decide) (by decide)
    (js "00ff") rfl).1

theorem creditcoinFormatUnits_ne_nil (value : JSStr) (d : Nat) (out : JSStr)
    (hd : 1 ≤ d) (h : creditcoinFormatUnits value d = some out) : out ≠ [] := by
  unfold creditcoinFormatUnits at h
  split_ifs at h
  · rw [← Option.some_inj.mp h]; decide
  · rw [← Option.some_inj.mp h]; decide
  · cases hb : jsBigInt value with
    | none => rw [hb] at h; exact absurd h (by simp)
    | some val =>
      rw [hb] at h
      have h' : (if val = 0 then some (js "0")
          else some (padSliceFormat (intToChars val) d)) = some out := h
      by_cases hz : val = 0
      · rw [if_pos hz] at h'
        rw [← Option.some_inj.mp h']; decide
      · rw [if_neg hz] at h'
        rw [← Option.some_inj.mp h']
        exact padSliceFormat_ne_nil _ d hd

theorem kaspaCount_pos_of_received_pos (outputs : List KaspaOutput)
    (nu : JSStr) (h : 0 < kaspaReceivedToSelf outputs nu) :
    0 < kaspaUserOutputCount outputs nu := by
  unfold kaspaUserOutputCount
  by_contra hc
  push_neg at hc
  have hnil : outputs.filter (fun o => kaspaOutAddr o == nu) = [] :=
    List.length_eq_zero.mp (Nat.le_zero.mp hc)
  unfold kaspaReceivedToSelf at h
  rw [hnil] at h
  simp at h

/-- C10 (amended): `parseCeloTransaction` never assigns `Unknown` (or
`Pending`): a success marker (`txreceipt_status = '1'` or `isError = '0'`)
gives `Success`; a failure marker (`txreceipt_status = '0'` or
`isError = '1'`) gives `Failed` only when no success marker is present
(success markers win, per the `if`/`else if` order); and a record matching
neither marker is assigned `Success`. -/
theorem parseCelo_status_never_unknown (tx : CeloRawTx) (u : JSStr) (i : Nat)
    (tn : Bool) (t : ParsedTx) (h : parseCeloTransaction tx u i tn = some t) :
    (t.status = TransactionStatus.SUCCESS ∨
      t.status = TransactionStatus.FAILED) ∧
    t.status ≠ TransactionStatus.UNKNOWN ∧
    ((tx.txreceipt_status = some (js "1") ∨ tx.isError = some (js "0")) →
      t.status = TransactionStatus.SUCCESS) ∧
    ((tx.txreceipt_status = some (js "0") ∨ tx.isError = some (js "1")) →
      ¬(tx.txreceipt_status = some (js "1") ∨ tx.isError = some (js "0")) →
      t.status = TransactionStatus.FAILED) ∧
    (¬(tx.txreceipt_status = some (js "1") ∨ tx.isError = some (js "0")) →
      ¬(tx.txreceipt_status = some (js "0") ∨ tx.isError = some (js "1")) →
      t.status = TransactionStatus.SUCCESS) := by
  have ht : t.status =
      (if tx.txreceipt_status = some (js "1") ∨ tx.isError = some (js "0") then
        TransactionStatus.SUCCESS
      else if tx.txreceipt_status = some (js "0") ∨ tx.isError = some (js "1") then
        TransactionStatus.FAILED
      else TransactionStatus.SUCCESS) := by
    unfold parseCeloTransaction at h
    simp only [Option.bind_eq_bind, Option.bind_eq_some] at h
    obtain ⟨valueStr, hval, h⟩ := h
    split at h
    · simp only [Option.bind_eq_some] at h
      obtain ⟨gu, hgu, gp, hgp, y, hy, h⟩ := h
      rw [← Option.some_inj.mp h]
    · simp only [pure, Option.bind_eq_some, Option.some.injEq] at h
      obtain ⟨y, hy, h⟩ := h
      rw [← h]
  refine ⟨?_, ?_, ?_, ?_, ?_⟩
  · rw [ht]; split_ifs <;> simp
  · rw [ht]; split_ifs <;> simp
  · intro hc; rw [ht, if_pos hc]
  · intro hc hns; rw [ht, if_neg hns, if_pos hc]
  · intro hns hnf; rw [ht, if_neg hns, if_neg hnf]

/-- C10 counterexample: a record carrying both markers
(`txreceipt_status = '1'` and `isError = '1'`) matches the claim's failure
marker yet parses to `Success` — the claim's unconditional "failure marker ⇒
Failed" is false. -/
theorem parseCelo_dual_marker_is_success :
    ((parseCeloTransaction
      { fromAddr := js "0xb", toAddr := some (js "0xa"), value := js "5"
      , input := some (js "0x"), gasUsed := some (js "21000")
      , gasPrice := some (js "1000"), timeStamp := js "1700000000"
      , hash := some (js "0xh"), txreceipt_status := some (js "1")
      , isError := some (js "1"), isTokenTransfer := false
      , tokenDecimal := none, tokenSymbol := none, contractAddress := none }
      (js "0xa") 0 false).map ParsedTx.status =
        some TransactionStatus.SUCCESS) ∧
    (some (js "1") = some (js "0") ∨ some (js "1") = some (js "1")) := by
  refine ⟨by decide, Or.inr rfl⟩

/-- C10 witness: the status theorem applied to a concrete record with no
receipt information at all, which parses with status `Success`. -/
theorem parseCelo_status_never_unknown_witness :
    ∃ t, parseCeloTransaction
      { fromAddr := js "0xb", toAddr := some (js "0xa"), value := js "5"
      , input := some (js "0x"), gasUsed := none, gasPrice := none
      , timeStamp := js "1700000000", hash := some (js "0xh")
      , txreceipt_status := none, isError := none, isTokenTransfer := false
      , tokenDecimal := none, tokenSymbol := none, contractAddress := none }
      (js "0xa") 0 false = some t ∧
      t.status = TransactionStatus.SUCCESS := by
  refine ⟨_, (Option.some_get (by decide)).symm, ?_⟩
  exact (parseCelo_status_never_unknown _ _ _ _ _
    (Option.some_get (by decide)).symm).2.2.2.2 (by decide) (by decide)

/-- C1: a Kaspa record with a positive output total to other addresses and a
positive output total back to the user, classified as a native transfer,
resolves to a single Send entry: `type = SEND`, `sentQuantity` is the
formatted `sentToOthers` total (not the net), and `receivedQuantity` is
empty (the change is not reported as a receive). -/
theorem kaspa_utxo_collapse (tx : KaspaRawTx) (u : JSStr)
    (traced : Option Nat) (now : Int) (i : Nat)
    (hsent : 0 < kaspaSentToOthers tx.outputs (normalizeKaspaAddress u))
    (hrecv : 0 < kaspaReceivedToSelf tx.outputs (normalizeKaspaAddress u))
    (hnative : detectKaspaTxType
      ((jsOrStr tx.subnetwork_id tx.subnetworkId).getD (js "0")) tx.payload =
      js "native_transfer") :
    (parseKaspaTransaction tx u traced now i).type = ActionType.SEND ∧
    (parseKaspaTransaction tx u traced now i).sentQuantity =
      kaspaFmtStr (natToChars
        (kaspaSentToOthers tx.outputs (normalizeKaspaAddress u))) ∧
    kaspaFormatUnits (natToChars
        (kaspaSentToOthers tx.outputs (normalizeKaspaAddress u))) 8 =
      some ((parseKaspaTransaction tx u traced now i).sentQuantity) ∧
    (parseKaspaTransaction tx u traced now i).receivedQuantity = [] := by
  have hcount := kaspaCount_pos_of_received_pos _ _ hrecv
  have hc1 : ¬(0 < kaspaSentToOthers tx.outputs (normalizeKaspaAddress u) ∧
      ¬0 < kaspaUserOutputCount tx.outputs (normalizeKaspaAddress u)) :=
    fun hx => hx.2 hcount
  have hc2 : ¬(¬0 < kaspaSentToOthers tx.outputs (normalizeKaspaAddress u) ∧
      0 < kaspaUserOutputCount tx.outputs (normalizeKaspaAddress u)) :=
    fun hx => hx.1 hsent
  have hc3 : 0 < kaspaSentToOthers tx.outputs (normalizeKaspaAddress u) ∧
      0 < kaspaUserOutputCount tx.outputs (normalizeKaspaAddress u) :=
    ⟨hsent, hcount⟩
  refine ⟨?_, ?_, ?_, ?_⟩
  · simp only [parseKaspaTransaction]
    rw [hnative]
    rw [if_pos rfl, if_neg hc1, if_neg hc2]
  · simp only [parseKaspaTransaction]
    rw [hnative]
    rw [if_pos rfl, if_neg hc1, if_neg hc2, if_neg hc1, if_neg hc2, if_pos hc3]
  · simp only [parseKaspaTransaction]
    rw [hnative]
    rw [if_pos rfl, if_neg hc1, if_neg hc2, if_neg hc1, if_neg hc2, if_pos hc3]
    exact kaspaFmtStr_eq _
  · simp only [parseKaspaTransaction]
    rw [hnative]
    rw [if_pos rfl, if_neg hc1, if_neg hc2]

/-- C1 witness: the collapse theorem applied to a concrete UTXO record with
`sentToOthers = 100` sompi and `receivedToSelf = 30` sompi (change): the
resulting entry is a Send of `0.000001` KAS (the 100, not the net 70). -/
theorem kaspa_utxo_collapse_witness :
    (0 : Nat) <
      kaspaSentToOthers
        [ { script_public_key_address := some (js "kaspa:user")
          , scriptPublicKeyAddress := none, amount := some 30, value := none }
        , { script_public_key_address := some (js "kaspa:other")
          , scriptPublicKeyAddress := none, amount := some 100, value := none } ]
        (normalizeKaspaAddress (js "kaspa:user")) ∧
    (parseKaspaTransaction
      { transaction_id := some (js "tx1"), transactionId := none
      , block_time := some 1700000000000, blockTime := none
      , accepting_block_time := none, is_accepted := some true
      , isAccepted := none, subnetwork_id := some (js "0")
      , subnetworkId := none, payload := none, inputs := []
      , outputs :=
        [ { script_public_key_address := some (js "kaspa:user")
          , scriptPublicKeyAddress := none, amount := some 30, value := none }
        , { script_public_key_address := some (js "kaspa:other")
          , scriptPublicKeyAddress := none, amount := some 100, value := none } ] }
      (js "kaspa:user") none 0 0).type = ActionType.SEND ∧
    (parseKaspaTransaction
      { transaction_id := some (js "tx1"), transactionId := none
      , block_time := some 1700000000000, blockTime := none
      , accepting_block_time := none, is_accepted := some true
      , isAccepted := none, subnetwork_id := some (js "0")
      , subnetworkId := none, payload := none, inputs := []
      , outputs :=
        [ { script_public_key_address := some (js "kaspa:user")
          , scriptPublicKeyAddress := none, amount := some 30, value := none }
        , { script_public_key_address := some (js "kaspa:other")
          , scriptPublicKeyAddress := none, amount := some 100, value := none } ] }
      (js "kaspa:user") none 0 0).sentQuantity = js "0.000001" ∧
    (parseKaspaTransaction
      { transaction_id := some (js "tx1"), transactionId := none
      , block_time := some 1700000000000, blockTime := none
      , accepting_block_time := none, is_accepted := some true
      , isAccepted := none, subnetwork_id := some (js "0")
      , subnetworkId := none, payload := none, inputs := []
      , outputs :=
        [ { script_public_key_address := some (js "kaspa:user")
          , scriptPublicKeyAddress := none, amount := some 30, value := none }
        , { script_public_key_address := some (js "kaspa:other")
          , scriptPublicKeyAddress := none, amount := some 100, value := none } ] }
      (js "kaspa:user") none 0 0).receivedQuantity = [] :=
  ⟨by decide, (kaspa_utxo_collapse _ _ none 0 0 (by decide) (by decide)
      (by decide)).1,
    by decide,
    (kaspa_utxo_collapse _ _ none 0 0 (by decide) (by decide) (by decide)).2.2.2⟩

/-- C5: contrary to the spec's requirement that a record lacking its primary
hash be rejected with a hard error, the Kaspa parser substitutes the empty
string (`tx.transaction_id || tx.transactionId || ''`) and emits a
transaction with `hash = ''` and `id = '_0'`, and the Creditcoin parser
copies an absent `tx.hash` (`undefined`) straight into the emitted record —
neither rejects. -/
theorem missing_hash_not_rejected :
    (parseKaspaTransaction
      { transaction_id := none, transactionId := none, block_time := none
      , blockTime := none, accepting_block_time := none, is_accepted := none
      , isAccepted := none, subnetwork_id := none, subnetworkId := none
      , payload := none, inputs := [], outputs := [] }
      (js "kaspa:user") none 0 0).hash = some [] ∧
    (parseKaspaTransaction
      { transaction_id := none, transactionId := none, block_time := none
      , blockTime := none, accepting_block_time := none, is_accepted := none
      , isAccepted := none, subnetwork_id := none, subnetworkId := none
      , payload := none, inputs := [], outputs := [] }
      (js "kaspa:user") none 0 0).id = js "_0" ∧
    ((parseCreditcoinTransaction
      { fromAddr := js "0xb", toAddr := some (js "0xa"), value := js "5"
      , input := some (js "0x"), gasUsed := js "1", gasPrice := js "1"
      , timeStamp := js "1", hash := none, txreceipt_status := none }
      (js "0xa") 0).map ParsedTx.hash = some none) ∧
    ((parseCreditcoinTransaction
      { fromAddr := js "0xb", toAddr := some (js "0xa"), value := js "5"
      , input := some (js "0x"), gasUsed := js "1", gasPrice := js "1"
      , timeStamp := js "1", hash := none, txreceipt_status := none }
      (js "0xa") 0).map ParsedTx.id = some (js "undefined_0")) := by
  refine ⟨by decide, by decide, by decide, by decide⟩

/-- C6 (amended): `feeAmount` is empty on every received Creditcoin
transaction (and `feeCurrency` too), and the Fuel parser's `feeAmount` is
empty on every transaction — but Fuel sets `feeCurrency` to `"ETH"`
unconditionally, so a receiver's copy does carry a currency in the fee pair
there (see the counterexample). -/
theorem fee_attribution_receiver :
    (∀ (tx : EvmRawTx) (u : JSStr) (i : Nat) (t : ParsedTx),
      parseCreditcoinTransaction tx u i = some t →
      jsToLower tx.fromAddr ≠ jsToLower u →
      t.feeAmount = [] ∧ t.feeCurrency = []) ∧
    (∀ (node : FuelNode) (u : JSStr) (now : Int) (i : Nat),
      (parseFuelTransaction node u now i).feeAmount = []) ∧
    (∀ (node : FuelNode) (u : JSStr) (now : Int) (i : Nat),
      (parseFuelTransaction node u now i).feeCurrency = js "ETH") := by
  refine ⟨?_, fun _ _ _ _ => rfl, fun _ _ _ _ => rfl⟩
  intro tx u i t h hne
  have hb : (jsToLower tx.fromAddr == jsToLower u) = false :=
    beq_eq_false_iff_ne.mpr hne
  unfold parseCreditcoinTransaction at h
  simp only [Option.bind_eq_bind, Option.bind_eq_some] at h
  obtain ⟨valueStr, hval, gu, hgu, gp, hgp, fee, hfee, h⟩ := h
  rw [← Option.some_inj.mp h]
  constructor <;> simp [hb]

/-- C6 counterexample: a Fuel transaction received by the user (direction
Receive) still carries `feeCurrency = "ETH"`, so the fee pair is not blank
on the receiver's copy. -/
theorem fuel_receiver_carries_feeCurrency :
    (parseFuelTransaction
      { id := some (js "0xf1")
      , status := some { time := some (js "2024-01-01"), reason := none }
      , inputs := some []
      , outputs := some [{ toAddr := some (js "0xuser"), amount := some 5 }] }
      (js "0xuser") 0 0).type = ActionType.RECEIVE ∧
    (parseFuelTransaction
      { id := some (js "0xf1")
      , status := some { time := some (js "2024-01-01"), reason := none }
      , inputs := some []
      , outputs := some [{ toAddr := some (js "0xuser"), amount := some 5 }] }
      (js "0xuser") 0 0).feeCurrency = js "ETH" ∧
    js "ETH" ≠ ([] : JSStr) := by
  refine ⟨by decide, by decide, by decide⟩

/-- C6 witness: the fee-attribution theorem applied to a concrete Creditcoin
record received by the user. -/
theorem fee_attribution_receiver_witness :
    ∃ t, parseCreditcoinTransaction
      { fromAddr := js "0xb", toAddr := some (js "0xa"), value := js "5"
      , input := some (js "0x"), gasUsed := js "21000", gasPrice := js "1000"
      , timeStamp := js "1700000000", hash := some (js "0xh")
      , txreceipt_status := some (js "1") } (js "0xa") 0 = some t ∧
      t.feeAmount = [] ∧ t.feeCurrency = [] := by
  refine ⟨_, (Option.some_get (by decide)).symm, ?_⟩
  exact fee_attribution_receiver.1 _ _ _ _
    (Option.some_get (by decide)).symm (by decide)

/-- C9: every Creditcoin transaction built from a native or token transfer
has exactly one of `sentQuantity`/`receivedQuantity` non-empty; every Kaspa
native transfer likewise; and a Kaspa contract-call record parses with both
quantities empty (`type = CONTRACT`). -/
theorem simple_transfer_exactly_one :
    (∀ (tx : EvmRawTx) (u : JSStr) (i : Nat) (t : ParsedTx),
      parseCreditcoinTransaction tx u i = some t →
      (detectTransactionType tx = js "native_transfer" ∨
        detectTransactionType tx = js "token_transfer") →
      (t.sentQuantity ≠ [] ∧ t.receivedQuantity = []) ∨
      (t.sentQuantity = [] ∧ t.receivedQuantity ≠ [])) ∧
    (∀ (tx : KaspaRawTx) (u : JSStr) (traced : Option Nat) (now : Int)
        (i : Nat),
      detectKaspaTxType
        ((jsOrStr tx.subnetwork_id tx.subnetworkId).getD (js "0"))
        tx.payload = js "native_transfer" →
      ((parseKaspaTransaction tx u traced now i).sentQuantity ≠ [] ∧
        (parseKaspaTransaction tx u traced now i).receivedQuantity = []) ∨
      ((parseKaspaTransaction tx u traced now i).sentQuantity = [] ∧
        (parseKaspaTransaction tx u traced now i).receivedQuantity ≠ [])) ∧
    ((parseKaspaTransaction
      { transaction_id := some (js "id9"), transactionId := none
      , block_time := some 5, blockTime := none
      , accepting_block_time := none, is_accepted := some true
      , isAccepted := none, subnetwork_id := some (js "99")
      , subnetworkId := none, payload := none, inputs := []
      , outputs :=
        [ { script_public_key_address := some (js "kaspa:other")
          , scriptPublicKeyAddress := none, amount := some 7, value := none } ] }
      (js "kaspa:u") none 0 0).sentQuantity = [] ∧
     (parseKaspaTransaction
      { transaction_id := some (js "id9"), transactionId := none
      , block_time := some 5, blockTime := none
      , accepting_block_time := none, is_accepted := some true
      , isAccepted := none, subnetwork_id := some (js "99")
      , subnetworkId := none, payload := none, inputs := []
      , outputs :=
        [ { script_public_key_address := some (js "kaspa:other")
          , scriptPublicKeyAddress := none, amount := some 7, value := none } ] }
      (js "kaspa:u") none 0 0).receivedQuantity = [] ∧
     (parseKaspaTransaction
      { transaction_id := some (js "id9"), transactionId := none
      , block_time := some 5, blockTime := none
      , accepting_block_time := none, is_accepted := some true
      , isAccepted := none, subnetwork_id := some (js "99")
      , subnetworkId := none, payload := none, inputs := []
      , outputs :=
        [ { script_public_key_address := some (js "kaspa:other")
          , scriptPublicKeyAddress := none, amount := some 7, value := none } ] }
      (js "kaspa:u") none 0 0).type = ActionType.CONTRACT) := by
  refine ⟨?_, ?_, by decide, by decide, by decide⟩
  · intro tx u i t h _
    unfold parseCreditcoinTransaction at h
    simp only [Option.bind_eq_bind, Option.bind_eq_some] at h
    obtain ⟨valueStr, hval, gu, hgu, gp, hgp, fee, hfee, h⟩ := h
    have hvne : valueStr ≠ [] :=
      creditcoinFormatUnits_ne_nil _ 18 _ (by omega) hval
    rw [← Option.some_inj.mp h]
    by_cases hs : (jsToLower tx.fromAddr == jsToLower u) = true
    · left
      constructor <;> simp [hs, hvne]
    · right
      rw [Bool.not_eq_true] at hs
      constructor <;> simp [hs, hvne]
  · intro tx u traced now i hnative
    have hrfl : js "native_transfer" = js "native_transfer" := rfl
    simp only [parseKaspaTransaction]
    rw [hnative]
    simp only [if_pos hrfl]
    by_cases hA : 0 < kaspaSentToOthers tx.outputs (normalizeKaspaAddress u) ∧
        ¬0 < kaspaUserOutputCount tx.outputs (normalizeKaspaAddress u)
    · left
      simp only [if_pos hA]
      exact ⟨kaspaFmtStr_natToChars_ne_nil _, rfl⟩
    · by_cases hB :
          ¬0 < kaspaSentToOthers tx.outputs (normalizeKaspaAddress u) ∧
          0 < kaspaUserOutputCount tx.outputs (normalizeKaspaAddress u)
      · right
        simp only [if_neg hA, if_pos hB]
        exact ⟨rfl, kaspaFmtStr_natToChars_ne_nil _⟩
      · left
        simp only [if_neg hA, if_neg hB]
        exact ⟨kaspaFmtStr_natToChars_ne_nil _, rfl⟩

/-- C9 witness: the Creditcoin part applied to a concrete native transfer
sent by the user, giving `sentQuantity` non-empty and `receivedQuantity`
empty. -/
theorem simple_transfer_exactly_one_witness :
    ∃ t, parseCreditcoinTransaction
      { fromAddr := js "0xa", toAddr := some (js "0xb")
      , value := js "2000000000000000000", input := some (js "0x")
      , gasUsed := js "21000", gasPrice := js "1000000000"
      , timeStamp := js "1700000000", hash := some (js "0xdead")
      , txreceipt_status := some (js "1") } (js "0xa") 0 = some t ∧
      ((t.sentQuantity ≠ [] ∧ t.receivedQuantity = []) ∨
        (t.sentQuantity = [] ∧ t.receivedQuantity ≠ [])) := by
  refine ⟨_, (Option.some_get (by decide)).symm, ?_⟩
  exact simple_transfer_exactly_one.1 _ _ _ _
    (Option.some_get (by decide)).symm (Or.inl (by decide))

end AwakenConnect
